import Mathlib

/-!
Verification of the request-admission and AI-response pipeline of the
ai-chatbot-bot repository, as a shallow embedding of the Python sources:

* src/services/ai_service.py     (AIService: cache, retry, fallback, cost)
* src/services/rate_limiter.py   (RateLimiter.check_rate_limit)
* src/services/channel_check.py  (ChannelCheckService.check_subscription)
* src/handlers/messages.py       (process_text_message, check_user_limits)
* src/database/models.py         (User, AICache)
* src/config.py                  (Settings defaults)

Timestamps are modelled as natural numbers (seconds); datetime comparisons
in the source become Nat comparisons.  External effects (Redis, SQL, the
AI backends, the Telegram API) are modelled as explicit state or oracle
parameters.  Every definition mirrors the corresponding Python function;
deviations forced by the modelling are noted in the doc comments.
-/

/-- One entry of a chat message sequence, mirroring the dicts
with keys role and content built in ai_service.py. -/
structure ChatMessage where
  role : String
  content : String
deriving DecidableEq

/-- database/models.py, SubscriptionStatus enum. -/
inductive SubscriptionStatus where
  | FREE
  | TRIAL
  | ACTIVE
  | EXPIRED
  | CANCELLED
deriving DecidableEq

/-- The fields of database/models.py User that the pipeline reads or
writes.  Datetime columns become Option Nat (seconds). -/
structure User where
  telegram_id : Int
  subscription_status : SubscriptionStatus
  subscription_expires_at : Option Nat
  free_messages_used : Nat
  free_messages_limit : Nat
  trial_messages_used : Nat
  trial_messages_limit : Nat
  channel_subscribed : Bool
  channel_checked_at : Option Nat
  total_messages_sent : Nat
  total_tokens_used : Nat
  total_cost_estimated : Int
deriving DecidableEq

/-- The configuration surface of config.py Settings that the pipeline
reads.  OPENAI_TEMPERATURE is a float in the source; it is modelled as a
rational (only its deterministic textual rendering enters the cache
fingerprint). -/
structure Settings where
  AI_PROVIDER : String
  OPENAI_MODEL : String
  GOOGLE_AI_MODEL : String
  OPENAI_TEMPERATURE : ℚ
  AI_CACHE_ENABLED : Bool
  AI_CACHE_TTL : Nat
  AI_MAX_RETRIES : Nat
  AI_RETRY_DELAY : Nat
  AI_FALLBACK_ENABLED : Bool
  AI_FALLBACK_MODEL : String
  REQUIRED_CHANNEL_ID : String
  CHANNEL_CHECK_CACHE_TTL : Nat
  RATE_LIMIT_FREE_PER_MINUTE : Nat
  RATE_LIMIT_FREE_PER_HOUR : Nat
  RATE_LIMIT_FREE_PER_DAY : Nat
  RATE_LIMIT_PAID_PER_MINUTE : Nat
  RATE_LIMIT_PAID_PER_HOUR : Nat
  RATE_LIMIT_PAID_PER_DAY : Nat
deriving DecidableEq

/-- The default values declared in config.py. -/
def defaultSettings : Settings where
  AI_PROVIDER := "openai"
  OPENAI_MODEL := "gpt-4-turbo-preview"
  GOOGLE_AI_MODEL := "gemini-pro"
  OPENAI_TEMPERATURE := 7 / 10
  AI_CACHE_ENABLED := true
  AI_CACHE_TTL := 3600
  AI_MAX_RETRIES := 3
  AI_RETRY_DELAY := 2
  AI_FALLBACK_ENABLED := true
  AI_FALLBACK_MODEL := "gpt-3.5-turbo"
  REQUIRED_CHANNEL_ID := ""
  CHANNEL_CHECK_CACHE_TTL := 300
  RATE_LIMIT_FREE_PER_MINUTE := 5
  RATE_LIMIT_FREE_PER_HOUR := 50
  RATE_LIMIT_FREE_PER_DAY := 200
  RATE_LIMIT_PAID_PER_MINUTE := 20
  RATE_LIMIT_PAID_PER_HOUR := 500
  RATE_LIMIT_PAID_PER_DAY := 5000

/-- The static per-model price dict of AIService.estimate_cost
(src/services/ai_service.py, lines 343-347): dollars per million tokens,
as an (input, output) pair; absent keys model absence from the dict. -/
def pricing (model : String) : Option (ℚ × ℚ) :=
  if model = "gpt-4-turbo-preview" then some (10, 30)
  else if model = "gpt-3.5-turbo" then some (1 / 2, 3 / 2)
  else if model = "gemini-pro" then some (1 / 4, 1 / 2)
  else none

/-- AIService.estimate_cost (src/services/ai_service.py, lines 337-355).
The Python float arithmetic is modelled exactly over the rationals; the
final int(...) truncation is Int.floor, which agrees with Python's
truncation toward zero because the value is non-negative. -/
def estimate_cost (tokens_used : Nat) (model : String) : Int :=
  match pricing model with
  | none => 0
  | some p =>
      let avg_price : ℚ := (p.1 + p.2) / 2
      let cost_dollars : ℚ := ((tokens_used : ℚ) / 1000000) * avg_price
      ⌊cost_dollars * 100⌋

/-- One row of the ai_cache table (database/models.py, AICache,
lines 190-205).  The cache_key column carries a UNIQUE constraint. -/
structure AICacheRow where
  cache_key : String
  prompt_hash : String
  response : String
  tokens_used : Nat
  expires_at : Nat
  hit_count : Nat
deriving DecidableEq

/-- The durable cache key written by AIService._save_cache:
the Python f-string with prefix ai_cache: applied to the prompt hash. -/
def ai_cache_key (prompt_hash : String) : String :=
  "ai_cache:" ++ prompt_hash

/-- The two cache tiers seen by AIService: the durable ai_cache table
(a list of rows, with the unique constraint on cache_key enforced at
insert) and the optional volatile Redis tier.  The Redis keys in the
source are the strings ai_cache:-hash-, determined by the hash, so the
volatile map is keyed by the prompt hash directly; Redis value TTLs are
not modelled (no claim depends on volatile-tier expiry). -/
structure CacheState where
  db : List AICacheRow
  redis : Option (String → Option String)

/-- AIService._get_cache (src/services/ai_service.py, lines 36-85).
Returns the cached response (None on miss) and the updated state.
The Redis branch: a configured client is consulted first and a hit is
returned as-is; a Redis read error is swallowed (modelled as a miss,
i.e. covered by the none branches).  The database branch mirrors the
select on prompt_hash and expires_at greater than now; exactly one row
gives a hit (incrementing hit_count and repopulating Redis), no row is a
miss, and two or more rows make scalar_one_or_none raise, which the
enclosing except swallows into a miss with no state change. -/
def ai_get_cache (s : Settings) (st : CacheState) (prompt_hash : String)
    (now : Nat) : Option String × CacheState :=
  if s.AI_CACHE_ENABLED = false then (none, st)
  else
    let redisHit : Option String :=
      match st.redis with
      | some m => m prompt_hash
      | none => none
    match redisHit with
    | some cached => (some cached, st)
    | none =>
        let matching := st.db.filter
          (fun r => r.prompt_hash == prompt_hash && decide (now < r.expires_at))
        match matching with
        | [r] =>
            let db' := st.db.map (fun x =>
              if x.prompt_hash == prompt_hash && decide (now < x.expires_at)
              then { x with hit_count := x.hit_count + 1 } else x)
            let redis' := match st.redis with
              | some m => some (fun k => if k = prompt_hash then some r.response else m k)
              | none => none
            (some r.response, ⟨db', redis'⟩)
        | [] => (none, st)
        | _ => (none, st)

/-- AIService._save_cache (src/services/ai_service.py, lines 87-131).
A fresh row is always constructed and inserted; if a row with the same
cache_key already exists, the UNIQUE constraint makes session.commit
raise, the except block swallows the error and rolls back, and the Redis
write (which in the source comes after the commit) is never reached, so
the whole call is a no-op.  On a successful insert the response is also
written to Redis when a client is configured (Redis errors there are
swallowed; the success case is modelled). -/
def ai_save_cache (s : Settings) (st : CacheState) (prompt_hash : String)
    (response : String) (tokens_used : Nat) (now : Nat) : CacheState :=
  if s.AI_CACHE_ENABLED = false then st
  else
    let expires_at := now + s.AI_CACHE_TTL
    let row : AICacheRow :=
      { cache_key := ai_cache_key prompt_hash
        prompt_hash := prompt_hash
        response := response
        tokens_used := tokens_used
        expires_at := expires_at
        hit_count := 0 }
    if st.db.any (fun r => r.cache_key == ai_cache_key prompt_hash) then st
    else
      { db := st.db ++ [row]
        redis := match st.redis with
          | some m => some (fun k => if k = prompt_hash then some response else m k)
          | none => none }

/-- The role-tagged message sequence built by AIService._call_openai
(lines 148-151): the chronological history followed by the new user
prompt. -/
def build_messages (conversation_history : Option (List ChatMessage))
    (prompt : String) : List ChatMessage :=
  (conversation_history.getD []) ++ [⟨"user", prompt⟩]

/-- Observable events of one _call_openai invocation tree: each API
attempt (with the message sequence and model it used) and each backoff
sleep (with its duration in seconds). -/
inductive ProviderEvent where
  | primaryCall (messages : List ChatMessage) (model : String)
  | sleepEvent (seconds : Nat)
  | fallbackCall (messages : List ChatMessage) (model : String)
deriving DecidableEq

/-- The result dict of a successful provider call: response text, token
usage, and the model actually used. -/
structure CallResult where
  response : String
  tokens_used : Nat
  model : String
deriving DecidableEq

/-- AIService._call_openai (src/services/ai_service.py, lines 133-196).
The OpenAI backend is an oracle giving, for each primary-model attempt in
order, either the response text and token usage or none (the call
raised); the single possible fallback attempt has its own oracle value.
The function returns the outcome (Except.error models the final raise)
together with the ordered list of observable events.  Mirrored control
flow: on failure, while retry_count is below AI_MAX_RETRIES the code
sleeps AI_RETRY_DELAY * (retry_count + 1) seconds and recurses with the
same history and prompt; at the last level, if AI_FALLBACK_ENABLED is
set and the requested model differs from AI_FALLBACK_MODEL, exactly one
fallback attempt is made, and its failure re-raises the original error,
which propagates through every recursion level untouched. -/
def call_openai (s : Settings) (primary : Nat → Option (String × Nat))
    (fallback : Option (String × Nat))
    (conversation_history : Option (List ChatMessage)) (prompt : String)
    (retry_count : Nat) : Except Unit CallResult × List ProviderEvent :=
  let messages := build_messages conversation_history prompt
  let model := s.OPENAI_MODEL
  match primary retry_count with
  | some r =>
      (Except.ok ⟨r.1, r.2, model⟩, [ProviderEvent.primaryCall messages model])
  | none =>
      if _h : retry_count < s.AI_MAX_RETRIES then
        let rest := call_openai s primary fallback conversation_history prompt
          (retry_count + 1)
        (rest.1, ProviderEvent.primaryCall messages model
          :: ProviderEvent.sleepEvent (s.AI_RETRY_DELAY * (retry_count + 1))
          :: rest.2)
      else if s.AI_FALLBACK_ENABLED = true ∧ model ≠ s.AI_FALLBACK_MODEL then
        fallback.elim
          (Except.error (),
           [ProviderEvent.primaryCall messages model,
            ProviderEvent.fallbackCall messages s.AI_FALLBACK_MODEL])
          (fun r =>
            (Except.ok ⟨r.1, r.2, s.AI_FALLBACK_MODEL⟩,
             [ProviderEvent.primaryCall messages model,
              ProviderEvent.fallbackCall messages s.AI_FALLBACK_MODEL]))
      else
        (Except.error (), [ProviderEvent.primaryCall messages model])
termination_by s.AI_MAX_RETRIES - retry_count
decreasing_by
  omega

/-- Python str.split with no argument: number of maximal whitespace-free
words, used by the Google path's approximate token accounting. -/
def word_count (text : String) : Nat :=
  ((text.split Char.isWhitespace).filter (fun w => w ≠ "")).length

/-- The flattened prompt _call_google_ai sends (lines 239-247): the
history rendered one line per message with localized role names, then a
blank line and the new prompt. -/
def google_full_prompt (conversation_history : Option (List ChatMessage))
    (prompt : String) : String :=
  match conversation_history with
  | none => prompt
  | some msgs =>
      let context := String.intercalate "\n"
        (msgs.map (fun msg =>
          (if msg.role = "user" then "Пользователь" else "Ассистент")
            ++ ": " ++ msg.content))
      context ++ "\n\nПользователь: " ++ prompt ++ "\nАссистент:"

/-- Observable events of one _call_google_ai invocation tree: each
generate_content attempt records the flattened prompt it sent and the
model name it was issued against. -/
inductive GoogleEvent where
  | callAttempt (full_prompt : String) (model : String)
  | sleepEvent (seconds : Nat)
deriving DecidableEq

/-- AIService._call_google_ai (src/services/ai_service.py, lines
198-280).  The backend oracle gives the response text of each attempt in
order, or none when the call raised.  Token usage is approximated by
word counts of prompt and response.  The model-name alias chain around
GenerativeModel construction (lines 217-237) is driven by library
exceptions and does not affect the retry logic; the configured
GOOGLE_AI_MODEL is used.  Note there is NO fallback branch: after the
retries are exhausted the error is re-raised directly. -/
def call_google_ai (s : Settings) (backend : Nat → Option String)
    (conversation_history : Option (List ChatMessage)) (prompt : String)
    (retry_count : Nat) : Except Unit CallResult × List GoogleEvent :=
  let full_prompt := google_full_prompt conversation_history prompt
  match backend retry_count with
  | some text =>
      (Except.ok ⟨text, word_count full_prompt + word_count text,
        s.GOOGLE_AI_MODEL⟩,
       [GoogleEvent.callAttempt full_prompt s.GOOGLE_AI_MODEL])
  | none =>
      if _h : retry_count < s.AI_MAX_RETRIES then
        let rest := call_google_ai s backend conversation_history prompt
          (retry_count + 1)
        (rest.1, GoogleEvent.callAttempt full_prompt s.GOOGLE_AI_MODEL
          :: GoogleEvent.sleepEvent (s.AI_RETRY_DELAY * (retry_count + 1))
          :: rest.2)
      else
        (Except.error (), [GoogleEvent.callAttempt full_prompt s.GOOGLE_AI_MODEL])
termination_by s.AI_MAX_RETRIES - retry_count
decreasing_by
  omega

/-- Settings as shipped but with the Google provider selected. -/
def googleSettings : Settings :=
  { defaultSettings with AI_PROVIDER := "google" }

/-- Event classifier: a primary-model API attempt. -/
def isPrimaryCall : ProviderEvent → Bool
  | ProviderEvent.primaryCall _ _ => true
  | _ => false

/-- Event classifier: a fallback-model API attempt. -/
def isFallbackCall : ProviderEvent → Bool
  | ProviderEvent.fallbackCall _ _ => true
  | _ => false

/-- The backoff durations of an OpenAI-path event trace, in order. -/
def providerSleeps (es : List ProviderEvent) : List Nat :=
  es.filterMap (fun e => match e with
    | ProviderEvent.sleepEvent n => some n
    | _ => none)

/-- Event classifier: a Google API attempt (any model). -/
def isGoogleAttempt : GoogleEvent → Bool
  | GoogleEvent.callAttempt _ _ => true
  | _ => false

/-- Event classifier: a Google API attempt against a given model. -/
def isGoogleAttemptWith (m : String) : GoogleEvent → Bool
  | GoogleEvent.callAttempt _ mdl => mdl == m
  | _ => false

/-- The backoff durations of a Google-path event trace, in order. -/
def googleSleeps (es : List GoogleEvent) : List Nat :=
  es.filterMap (fun e => match e with
    | GoogleEvent.sleepEvent n => some n
    | _ => none)

/-- A rate-limiter counter key.  The source encodes this triple into the
Redis string key with prefix rate_limit: followed by the user id, the
granularity word and the strftime-truncated bucket id; that encoding is
injective, so the counter store is keyed by the triple directly.  Bucket
ids are wall-clock truncations: seconds divided by 60, 3600, 86400. -/
structure RedisKey where
  user_id : Int
  granularity : String
  bucket : Nat
deriving DecidableEq

/-- The shared counter store: counters are absent until first INCR
(Redis GET returns nil).  Counter values are decimal strings in Redis;
they are written only by INCR so they are modelled as naturals.  Key
expiries (set to the window length at每 write) cannot elapse before the
key's own wall-clock bucket ends, so they are not modelled. -/
def RedisState : Type := RedisKey → Option Nat

/-- Redis INCR: a missing key becomes 1, a present one is incremented. -/
def redis_incr (st : RedisState) (k : RedisKey) : RedisState :=
  fun k' => if k' = k then some ((st k).getD 0 + 1) else st k'

/-- The paid-tier test of RateLimiter.check_rate_limit (lines 43-47):
an ACTIVE subscription with an expiry strictly in the future. -/
def is_paid_user (user : User) (now : Nat) : Bool :=
  decide (user.subscription_status = SubscriptionStatus.ACTIVE) &&
    (match user.subscription_expires_at with
     | none => false
     | some e => decide (now < e))

/-- The per-minute denial message (f-string at line 72). -/
def minute_limit_message (n : Nat) : String :=
  "Превышен лимит: " ++ toString n ++ " запросов в минуту"

/-- The per-hour denial message (f-string at line 76). -/
def hour_limit_message (n : Nat) : String :=
  "Превышен лимит: " ++ toString n ++ " запросов в час"

/-- The per-day denial message (f-string at line 80). -/
def day_limit_message (n : Nat) : String :=
  "Превышен лимит: " ++ toString n ++ " запросов в день"

/-- RateLimiter.check_rate_limit (src/services/rate_limiter.py, lines
20-104).  Parameters model the environment: directory is the users table
keyed by telegram_id; lookupOk=false models any exception inside the
outer try (caught at line 101: fail open, no state touched); redis=none
models an unconfigured/unavailable client (line 99 fallback: allow);
redisOk=false models a Redis operation raising (caught at line 93, falls
through to the same allow).  The guard on each counter mirrors
"count and int(count) >= limit": a present counter at or above the
threshold denies; on allow all three counters are INCRed. -/
def check_rate_limit (s : Settings) (directory : Int → Option User)
    (lookupOk : Bool) (redis : Option RedisState) (redisOk : Bool)
    (now : Nat) (user_id : Int) :
    (Bool × Option String) × Option RedisState :=
  if lookupOk = false then ((true, none), redis)
  else
    match directory user_id with
    | none => ((false, some ("Пользователь не найден")), redis)
    | some user =>
        let per_minute := if is_paid_user user now
          then s.RATE_LIMIT_PAID_PER_MINUTE else s.RATE_LIMIT_FREE_PER_MINUTE
        let per_hour := if is_paid_user user now
          then s.RATE_LIMIT_PAID_PER_HOUR else s.RATE_LIMIT_FREE_PER_HOUR
        let per_day := if is_paid_user user now
          then s.RATE_LIMIT_PAID_PER_DAY else s.RATE_LIMIT_FREE_PER_DAY
        match redis with
        | none => ((true, none), none)
        | some st =>
            if redisOk = false then ((true, none), some st)
            else
              let minute_key : RedisKey := ⟨user_id, "minute", now / 60⟩
              let hour_key : RedisKey := ⟨user_id, "hour", now / 3600⟩
              let day_key : RedisKey := ⟨user_id, "day", now / 86400⟩
              if (st minute_key).elim false (fun c => decide (per_minute ≤ c)) then
                ((false, some (minute_limit_message per_minute)), some st)
              else if (st hour_key).elim false (fun c => decide (per_hour ≤ c)) then
                ((false, some (hour_limit_message per_hour)), some st)
              else if (st day_key).elim false (fun c => decide (per_day ≤ c)) then
                ((false, some (day_limit_message per_day)), some st)
              else
                ((true, none),
                 some (redis_incr (redis_incr (redis_incr st minute_key) hour_key)
                   day_key))

/-- A sequence of rate-limit checks for one identity at the given
timestamps, with the directory lookup and the counter store both
operating, threading the counter store through; returns the per-call
results in order and the final store. -/
def run_rate_limit (s : Settings) (directory : Int → Option User)
    (user_id : Int) :
    Option RedisState → List Nat → List (Bool × Option String) × Option RedisState
  | redis, [] => ([], redis)
  | redis, t :: ts =>
      let step := check_rate_limit s directory true redis true t user_id
      let rest := run_rate_limit s directory user_id step.2 ts
      (step.1 :: rest.1, rest.2)

/-- The canonical counter store of an identity after a allowed calls,
all of whose increments landed in the same wall-clock minute bucket b
(hence hour bucket b / 60 and day bucket b / 1440): all three counters
hold a, and a counter is absent exactly while a = 0. -/
def counters_state (user_id : Int) (b a : Nat) : RedisState :=
  fun k =>
    if (k = ⟨user_id, "minute", b⟩ ∨ k = ⟨user_id, "hour", b / 60⟩
        ∨ k = ⟨user_id, "day", b / 1440⟩) ∧ a ≠ 0
    then some a else none

/-- The user-facing message produced once the tightest of the three
window limits is hit (minute checked first, then hour, then day). -/
def tightest_limit_message (Lm Lh Ld : Nat) : String :=
  if Lm ≤ min Lm (min Lh Ld) then minute_limit_message Lm
  else if Lh ≤ min Lm (min Lh Ld) then hour_limit_message Lh
  else day_limit_message Ld

/-- The volatile-tier read of ChannelCheckService.check_subscription
(lines 40-49): consulted only when a client is configured and the caller
did not force a refresh; stores the boolean as the strings 1 / 0 keyed by
channel_sub:-user_id-, modelled as a Bool map keyed by the user id.  A
read error is swallowed (covered by the none cases). -/
def channel_redis_cached (redis : Option (Int → Option Bool))
    (user_id : Int) (force_check : Bool) : Option Bool :=
  match redis with
  | some m => if force_check then none else m user_id
  | none => none

/-- The durable-tier cache read (lines 57-74): a recorded check result is
honoured only when it exists, is fresher than CHANNEL_CHECK_CACHE_TTL,
and no refresh was forced.  The datetime subtraction is Nat truncated
subtraction, which coincides for checked_at at or before now. -/
def channel_db_cached (s : Settings) (user : Option User) (now : Nat)
    (force_check : Bool) : Option Bool :=
  match user with
  | some u =>
      if force_check then none
      else
        match u.channel_checked_at with
        | some t =>
            if now - t < s.CHANNEL_CHECK_CACHE_TTL then some u.channel_subscribed
            else none
        | none => none
  | none => none

/-- ChannelCheckService.check_subscription (src/services/channel_check.py,
lines 22-120).  live models the Telegram get_chat_member call: the member
status string on success, none when the authority is unreachable or the
call raises (the source treats any such failure alike at line 110).
Returns the decision pair and the possibly-updated user record.  The
Redis repopulation writes and the outer catch-all except (lines 117-120,
reachable only through non-API failures such as a database error) are
outside every claim and are not modelled. -/
def check_subscription (s : Settings) (redis : Option (Int → Option Bool))
    (user : Option User) (user_id : Int) (now : Nat) (live : Option String)
    (force_check : Bool) : (Bool × Option String) × Option User :=
  if s.REQUIRED_CHANNEL_ID = "" then ((true, none), user)
  else
    match channel_redis_cached redis user_id force_check with
    | some b => ((b, none), user)
    | none =>
        match channel_db_cached s user now force_check with
        | some b => ((b, none), user)
        | none =>
            match live with
            | some status =>
                let is_subscribed :=
                  (["member", "administrator", "creator"] : List String).contains
                    status
                ((is_subscribed, none),
                 user.map (fun u =>
                   { u with channel_subscribed := is_subscribed,
                            channel_checked_at := some now }))
            | none =>
                match user with
                | some u =>
                    if u.channel_subscribed then ((true, none), user)
                    else ((false,
                      some ("Ошибка при проверке подписки. Попробуйте позже.")),
                      user)
                | none =>
                    ((false,
                      some ("Ошибка при проверке подписки. Попробуйте позже.")),
                      user)

/-- Settings as shipped but with a required channel configured. -/
def channelSettings : Settings :=
  { defaultSettings with REQUIRED_CHANNEL_ID := "@channel" }

/-- AIService._hash_prompt (src/services/ai_service.py, lines 30-34).
The SHA-256 digest is an opaque deterministic function H of the content
string; the content is exactly the f-string over the prompt, the
configured model (the provider's configured default when no explicit
model is passed) and the rendering of OPENAI_TEMPERATURE.  Note the
signature: neither the requester identity nor the conversation history
is an input. -/
def hash_prompt (H : String → String) (s : Settings) (prompt : String)
    (model : Option String) : String :=
  let m := model.getD (if s.AI_PROVIDER = "openai" then s.OPENAI_MODEL
    else s.GOOGLE_AI_MODEL)
  H (prompt ++ ":" ++ m ++ ":" ++ toString s.OPENAI_TEMPERATURE)

/-- The result dict of AIService.process_text; the wall-clock
processing_time entry is not modelled. -/
structure ProcessTextResult where
  response : String
  tokens_used : Nat
  model : String
  from_cache : Bool
deriving DecidableEq

/-- AIService.process_text (src/services/ai_service.py, lines 282-335):
hash the prompt (identity- and history-blind), consult the cache, on a
hit return the cached response flagged from_cache with zero tokens, on a
miss call the selected provider (the unsupported-provider ValueError and
any provider failure become the error outcome) and store the successful
response in the cache.  The session argument of the source is the
database handle inside CacheState; it is always passed by the handler. -/
def process_text (H : String → String) (s : Settings)
    (openaiPrimary : Nat → Option (String × Nat))
    (openaiFallback : Option (String × Nat))
    (googleBackend : Nat → Option String)
    (st : CacheState) (prompt : String) (user_id : Int)
    (conversation_history : Option (List ChatMessage)) (now : Nat) :
    Except Unit ProcessTextResult × CacheState :=
  let prompt_hash := hash_prompt H s prompt none
  let cached := ai_get_cache s st prompt_hash now
  match cached.1 with
  | some c =>
      (Except.ok ⟨c, 0, s.AI_PROVIDER ++ "_cached", true⟩, cached.2)
  | none =>
      let callRes : Except Unit CallResult :=
        if s.AI_PROVIDER = "openai" then
          (call_openai s openaiPrimary openaiFallback conversation_history
            prompt 0).1
        else if s.AI_PROVIDER = "google" then
          (call_google_ai s googleBackend conversation_history prompt 0).1
        else Except.error ()
      match callRes with
      | Except.ok r =>
          (Except.ok ⟨r.response, r.tokens_used, r.model, false⟩,
           ai_save_cache s cached.2 prompt_hash r.response r.tokens_used now)
      | Except.error e => (Except.error e, cached.2)

/-- check_user_limits (src/handlers/messages.py, lines 56-80): paid users
pass; trial users pass while under the trial allowance; everyone else
passes while under the free allowance.  The paid test is the same
expression as the rate limiter's, reused here. -/
def check_user_limits (now : Nat) (user : User) : Bool × Option String :=
  if is_paid_user user now then (true, none)
  else if user.subscription_status = SubscriptionStatus.TRIAL then
    if user.trial_messages_limit ≤ user.trial_messages_used then
      (false, some ("Пробный период истек. Оформите подписку для продолжения."))
    else (true, none)
  else if user.free_messages_limit ≤ user.free_messages_used then
    (false, some ("Бесплатный лимит исчерпан ("
      ++ toString user.free_messages_limit
      ++ " сообщений).\n\nОформите подписку для неограниченных запросов!"))
  else (true, none)

/-- The user-visible outcome of one text-message handling. -/
inductive HandlerOutcome where
  | notFound
  | denied (message : String)
  | aiError
  | answered (response : String)
deriving DecidableEq

/-- The accounting slice of process_text_message (src/handlers/messages.py,
lines 98-237): look the user up (unknown → prompt to /start), check the
tier allowance (denied → the limit message, nothing persisted), run the
AI call (ai is its outcome; an exception → error reply, nothing
persisted), and on success persist the updated user record: totals
advance and the tier counter of the CURRENT subscription_status — trial,
else free — advances by one, with no regard to the result's from_cache
flag.  Conversation bookkeeping and the typing indicator carry no claim
and are not modelled. -/
def process_text_message (s : Settings) (directory : Int → Option User)
    (user_id : Int) (ai : Option ProcessTextResult) (now : Nat) :
    HandlerOutcome × Option User :=
  match directory user_id with
  | none => (HandlerOutcome.notFound, none)
  | some user =>
      match check_user_limits now user with
      | (false, msg) => (HandlerOutcome.denied (msg.getD ""), some user)
      | (true, _) =>
          match ai with
          | none => (HandlerOutcome.aiError, some user)
          | some r =>
              (HandlerOutcome.answered r.response,
               some { user with
                 total_messages_sent := user.total_messages_sent + 1
                 total_tokens_used := user.total_tokens_used + r.tokens_used
                 total_cost_estimated := user.total_cost_estimated
                   + estimate_cost r.tokens_used r.model
                 trial_messages_used :=
                   if user.subscription_status = SubscriptionStatus.TRIAL
                   then user.trial_messages_used + 1
                   else user.trial_messages_used
                 free_messages_used :=
                   if user.subscription_status = SubscriptionStatus.TRIAL
                   then user.free_messages_used
                   else if user.subscription_status = SubscriptionStatus.FREE
                   then user.free_messages_used + 1
                   else user.free_messages_used })

/-- Monotonicity of the cost formula for a fixed non-negative average
price. -/
theorem estimate_cost_core_mono (c : ℚ) (hc : 0 ≤ c) {t t' : Nat} (h : t ≤ t') :
    ⌊((t : ℚ) / 1000000) * c * 100⌋ ≤ ⌊((t' : ℚ) / 1000000) * c * 100⌋ := by
  apply Int.floor_le_floor
  have ht : (t : ℚ) ≤ (t' : ℚ) := by exact_mod_cast h
  have h1 : (t : ℚ) / 1000000 ≤ (t' : ℚ) / 1000000 := by
    apply div_le_div_of_nonneg_right ht
    norm_num
  nlinarith [h1, hc]

/-- C8: for every fixed model identifier, estimate_cost is a (pure,
deterministic) function of the token count that is monotonically
non-decreasing in the token count, and every model identifier absent from
the static price table yields cost 0 for every token count.  (Purity and
determinism hold by construction: estimate_cost is a Lean function of its
two arguments alone.) -/
theorem C8_estimate_cost_monotone_unknown_zero (m : String) :
    (∀ t t' : Nat, t ≤ t' → estimate_cost t m ≤ estimate_cost t' m) ∧
    (pricing m = none → ∀ t : Nat, estimate_cost t m = 0) := by
  constructor
  · intro t t' h
    unfold estimate_cost
    unfold pricing
    split_ifs <;> simp only [] <;>
      first
        | exact le_refl 0
        | exact estimate_cost_core_mono _ (by norm_num) h
  · intro hp t
    unfold estimate_cost
    rw [hp]

/-- Witness for C8 at concrete inputs: a known model is monotone between
1000000 and 2000000 tokens, and an unknown model costs 0. -/
theorem C8_witness :
    estimate_cost 1000000 ("gpt-3.5-turbo") ≤ estimate_cost 2000000 ("gpt-3.5-turbo") ∧
    estimate_cost 12345 ("gpt-5") = 0 :=
  ⟨(C8_estimate_cost_monotone_unknown_zero ("gpt-3.5-turbo")).1 1000000 2000000 (by decide),
   (C8_estimate_cost_monotone_unknown_zero ("gpt-5")).2 (by decide) 12345⟩

/-- The conjunctive where-clause of the cache select splits into two
successive filters. -/
theorem cache_filter_split (l : List AICacheRow) (h : String) (now : Nat) :
    l.filter (fun r => r.prompt_hash == h && decide (now < r.expires_at))
      = (l.filter (fun r => r.prompt_hash == h)).filter
          (fun r => decide (now < r.expires_at)) := by
  rw [List.filter_filter]
  apply List.filter_congr
  intro x _
  rw [Bool.and_comm]

/-- C6: with the volatile tier absent (durable-tier lookup) and the
durable store holding exactly one row for the fingerprint, the lookup
returns the stored response exactly while now is before expires_at; once
now has reached expires_at the lookup is a miss even though the row is
still physically present in the store. -/
theorem C6_cache_expiry (s : Settings) (st : CacheState) (h : String)
    (r : AICacheRow) (now : Nat)
    (hen : s.AI_CACHE_ENABLED = true)
    (hredis : st.redis = none)
    (hfilter : st.db.filter (fun x => x.prompt_hash == h) = [r]) :
    (now < r.expires_at → (ai_get_cache s st h now).1 = some r.response) ∧
    (r.expires_at ≤ now → r ∈ st.db ∧ (ai_get_cache s st h now).1 = none) := by
  have hmem : r ∈ st.db := by
    have : r ∈ st.db.filter (fun x => x.prompt_hash == h) := by
      rw [hfilter]; exact List.mem_singleton.mpr rfl
    exact List.mem_of_mem_filter this
  constructor
  · intro hlt
    simp only [ai_get_cache, hen, hredis, cache_filter_split, hfilter]
    simp [List.filter, hlt]
  · intro hge
    refine ⟨hmem, ?_⟩
    simp only [ai_get_cache, hen, hredis, cache_filter_split, hfilter]
    simp [List.filter, Nat.not_lt.mpr hge]

/-- Witness for C6 on a concrete one-row store: a hit one second before
expiry, a miss at expiry with the row still present. -/
theorem C6_witness :
    (ai_get_cache defaultSettings
        ⟨[⟨ai_cache_key ("h"), "h", "resp", 9, 100, 0⟩], none⟩ ("h") 99).1
        = some ("resp") ∧
    (⟨ai_cache_key ("h"), "h", "resp", 9, 100, 0⟩ : AICacheRow)
        ∈ [(⟨ai_cache_key ("h"), "h", "resp", 9, 100, 0⟩ : AICacheRow)] ∧
    (ai_get_cache defaultSettings
        ⟨[⟨ai_cache_key ("h"), "h", "resp", 9, 100, 0⟩], none⟩ ("h") 100).1
        = none :=
  ⟨(C6_cache_expiry defaultSettings
      ⟨[⟨ai_cache_key ("h"), "h", "resp", 9, 100, 0⟩], none⟩ ("h")
      ⟨ai_cache_key ("h"), "h", "resp", 9, 100, 0⟩ 99 rfl rfl (by decide)).1
      (by decide),
   (C6_cache_expiry defaultSettings
      ⟨[⟨ai_cache_key ("h"), "h", "resp", 9, 100, 0⟩], none⟩ ("h")
      ⟨ai_cache_key ("h"), "h", "resp", 9, 100, 0⟩ 100 rfl rfl (by decide)).2
      (by decide)⟩

/-- Counterexample to C5 as stated: with the cache enabled, two stores
for the same fingerprint followed by a lookup return the response of the
FIRST store, not the second.  The second insert collides with the unique
cache_key constraint, the error is swallowed, and neither tier is
updated. -/
theorem C5_counterexample :
    (ai_get_cache defaultSettings
        (ai_save_cache defaultSettings
          (ai_save_cache defaultSettings ⟨[], some (fun _ => none)⟩ ("h") ("r1") 3 0)
          ("h") ("r2") 4 0)
        ("h") 10).1 = some ("r1") ∧ ("r1" : String) ≠ "r2" := by
  constructor
  · rfl
  · decide

/-- C5 amended: with the cache enabled and no pre-existing row for the
fingerprint, the EARLIER store wins: the second store is a complete
no-op (the durable insert violates the unique cache_key constraint and
the swallowed error also skips the volatile write), and a subsequent
in-TTL lookup returns the response written by the first store. -/
theorem C5_first_write_wins (s : Settings) (st : CacheState)
    (h r1 r2 : String) (k1 k2 now0 now1 now : Nat)
    (hen : s.AI_CACHE_ENABLED = true)
    (hkey : ∀ row ∈ st.db, row.cache_key ≠ ai_cache_key h)
    (hhash : ∀ row ∈ st.db, row.prompt_hash ≠ h)
    (hnow : now < now0 + s.AI_CACHE_TTL) :
    ai_save_cache s (ai_save_cache s st h r1 k1 now0) h r2 k2 now1
      = ai_save_cache s st h r1 k1 now0 ∧
    (ai_get_cache s (ai_save_cache s st h r1 k1 now0) h now).1 = some r1 := by
  have hanyfalse : st.db.any (fun r => r.cache_key == ai_cache_key h) = false := by
    rw [List.any_eq_false]
    intro row hrow
    simpa using hkey row hrow
  have hrow1 : ai_save_cache s st h r1 k1 now0
      = ⟨st.db ++ [⟨ai_cache_key h, h, r1, k1, now0 + s.AI_CACHE_TTL, 0⟩],
         match st.redis with
         | some m => some (fun k => if k = h then some r1 else m k)
         | none => none⟩ := by
    simp [ai_save_cache, hen, hanyfalse]
  constructor
  · rw [hrow1]
    have hany2 : (st.db
          ++ [(⟨ai_cache_key h, h, r1, k1, now0 + s.AI_CACHE_TTL, 0⟩ : AICacheRow)]).any
          (fun r => r.cache_key == ai_cache_key h) = true := by
      simp
    simp [ai_save_cache, hen, hany2]
  · rw [hrow1]
    cases hr : st.redis with
    | some m =>
        simp [ai_get_cache, hen]
    | none =>
        have hfilter : (st.db
              ++ [(⟨ai_cache_key h, h, r1, k1, now0 + s.AI_CACHE_TTL, 0⟩ : AICacheRow)]).filter
              (fun x => x.prompt_hash == h && decide (now < x.expires_at))
            = [⟨ai_cache_key h, h, r1, k1, now0 + s.AI_CACHE_TTL, 0⟩] := by
          rw [List.filter_append]
          have hleft : st.db.filter
              (fun x => x.prompt_hash == h && decide (now < x.expires_at)) = [] := by
            rw [List.filter_eq_nil_iff]
            intro row hrow
            simp [hhash row hrow]
          rw [hleft]
          simp [hnow]
        simp only [ai_get_cache, hen, Bool.false_eq_true, if_false, hfilter]
        simp [hfilter]

/-- Witness for the amended C5 theorem at concrete inputs. -/
theorem C5_witness :
    ai_save_cache defaultSettings
        (ai_save_cache defaultSettings ⟨[], none⟩ ("k") ("first") 3 0) ("k") ("second") 4 1
      = ai_save_cache defaultSettings ⟨[], none⟩ ("k") ("first") 3 0 ∧
    (ai_get_cache defaultSettings
        (ai_save_cache defaultSettings ⟨[], none⟩ ("k") ("first") 3 0) ("k") 5).1
      = some ("first") :=
  C5_first_write_wins defaultSettings ⟨[], none⟩ ("k") ("first") ("second") 3 4 0 1 5
    rfl (by simp) (by simp) (by decide)

/-- Behaviour of _call_openai under persistent backend failure, for every
starting retry_count: the error propagates, the primary model is tried
once per remaining retry budget plus one, the fallback model is tried
exactly once when fallback applies (and never otherwise), every attempt
reuses the same message sequence, and the backoff sleeps are
AI_RETRY_DELAY times the successive attempt numbers. -/
theorem call_openai_persistent_failure (s : Settings)
    (primary : Nat → Option (String × Nat)) (fallback : Option (String × Nat))
    (hist : Option (List ChatMessage)) (prompt : String)
    (hfail : ∀ k, primary k = none) (hfb : fallback = none) :
    ∀ n rc, s.AI_MAX_RETRIES - rc = n →
      (call_openai s primary fallback hist prompt rc).1 = Except.error () ∧
      (call_openai s primary fallback hist prompt rc).2.countP isPrimaryCall = n + 1 ∧
      (call_openai s primary fallback hist prompt rc).2.countP isFallbackCall
        = (if s.AI_FALLBACK_ENABLED = true ∧ s.OPENAI_MODEL ≠ s.AI_FALLBACK_MODEL
           then 1 else 0) ∧
      providerSleeps (call_openai s primary fallback hist prompt rc).2
        = (List.range' (rc + 1) n).map (fun i => s.AI_RETRY_DELAY * i) ∧
      (∀ e ∈ (call_openai s primary fallback hist prompt rc).2,
        (∀ msgs mdl, e = ProviderEvent.primaryCall msgs mdl →
          msgs = build_messages hist prompt ∧ mdl = s.OPENAI_MODEL) ∧
        (∀ msgs mdl, e = ProviderEvent.fallbackCall msgs mdl →
          msgs = build_messages hist prompt ∧ mdl = s.AI_FALLBACK_MODEL)) := by
  intro n
  induction n with
  | zero =>
      intro rc hrc
      have hnot : ¬ rc < s.AI_MAX_RETRIES := by omega
      have heq : call_openai s primary fallback hist prompt rc
          = if s.AI_FALLBACK_ENABLED = true ∧ s.OPENAI_MODEL ≠ s.AI_FALLBACK_MODEL
            then (Except.error (),
              [ProviderEvent.primaryCall (build_messages hist prompt) s.OPENAI_MODEL,
               ProviderEvent.fallbackCall (build_messages hist prompt) s.AI_FALLBACK_MODEL])
            else (Except.error (),
              [ProviderEvent.primaryCall (build_messages hist prompt) s.OPENAI_MODEL]) := by
        conv_lhs => rw [call_openai.eq_def]
        simp [hfail, hfb, hnot]
      by_cases hcond : s.AI_FALLBACK_ENABLED = true ∧ s.OPENAI_MODEL ≠ s.AI_FALLBACK_MODEL
      · rw [heq, if_pos hcond, if_pos hcond]
        refine ⟨rfl, ?_, ?_, ?_, ?_⟩
        · simp [List.countP_cons, isPrimaryCall, isFallbackCall]
        · simp [List.countP_cons, isPrimaryCall, isFallbackCall]
        · simp [providerSleeps]
        · intro e he
          simp only [List.mem_cons, List.not_mem_nil, or_false] at he
          rcases he with h1 | h1
          · subst h1
            exact ⟨fun msgs mdl hh => by cases hh; exact ⟨rfl, rfl⟩,
                   fun msgs mdl hh => nomatch hh⟩
          · subst h1
            exact ⟨fun msgs mdl hh => (nomatch hh),
                   fun msgs mdl hh => by cases hh; exact ⟨rfl, rfl⟩⟩
      · rw [heq, if_neg hcond, if_neg hcond]
        refine ⟨rfl, ?_, ?_, ?_, ?_⟩
        · simp [List.countP_cons, isPrimaryCall]
        · simp [List.countP_cons, isFallbackCall]
        · simp [providerSleeps]
        · intro e he
          simp only [List.mem_cons, List.not_mem_nil, or_false] at he
          subst he
          exact ⟨fun msgs mdl hh => by cases hh; exact ⟨rfl, rfl⟩,
                 fun msgs mdl hh => nomatch hh⟩
  | succ m ih =>
      intro rc hrc
      have hlt : rc < s.AI_MAX_RETRIES := by omega
      have heq : call_openai s primary fallback hist prompt rc
          = ((call_openai s primary fallback hist prompt (rc + 1)).1,
             ProviderEvent.primaryCall (build_messages hist prompt) s.OPENAI_MODEL
               :: ProviderEvent.sleepEvent (s.AI_RETRY_DELAY * (rc + 1))
               :: (call_openai s primary fallback hist prompt (rc + 1)).2) := by
        conv_lhs => rw [call_openai.eq_def]
        simp [hfail, hlt]
      obtain ⟨ih1, ih2, ih3, ih4, ih5⟩ := ih (rc + 1) (by omega)
      rw [heq]
      refine ⟨ih1, ?_, ?_, ?_, ?_⟩
      · simp [List.countP_cons, isPrimaryCall, ih2]
      · simp [List.countP_cons, isPrimaryCall, isFallbackCall, ih3]
      · have hs : providerSleeps
            (ProviderEvent.primaryCall (build_messages hist prompt) s.OPENAI_MODEL
              :: ProviderEvent.sleepEvent (s.AI_RETRY_DELAY * (rc + 1))
              :: (call_openai s primary fallback hist prompt (rc + 1)).2)
            = s.AI_RETRY_DELAY * (rc + 1)
              :: providerSleeps (call_openai s primary fallback hist prompt (rc + 1)).2 := by
          simp [providerSleeps]
        rw [hs, ih4, List.range'_succ, List.map_cons]
      · intro e he
        simp only [List.mem_cons] at he
        rcases he with h1 | h1 | h1
        · subst h1
          exact ⟨fun msgs mdl hh => by cases hh; exact ⟨rfl, rfl⟩,
                 fun msgs mdl hh => nomatch hh⟩
        · subst h1
          exact ⟨fun msgs mdl hh => (nomatch hh),
                 fun msgs mdl hh => (nomatch hh)⟩
        · exact ih5 e h1

/-- Behaviour of _call_google_ai under persistent backend failure, for
every starting retry_count: the error propagates, the configured model is
tried once per remaining retry budget plus one, no attempt is ever made
against any other model (in particular none against AI_FALLBACK_MODEL),
every attempt reuses the same flattened prompt, and the backoff sleeps
are AI_RETRY_DELAY times the successive attempt numbers. -/
theorem call_google_ai_persistent_failure (s : Settings)
    (backend : Nat → Option String) (hist : Option (List ChatMessage))
    (prompt : String) (hfail : ∀ k, backend k = none) :
    ∀ n rc, s.AI_MAX_RETRIES - rc = n →
      (call_google_ai s backend hist prompt rc).1 = Except.error () ∧
      (call_google_ai s backend hist prompt rc).2.countP isGoogleAttempt = n + 1 ∧
      (s.GOOGLE_AI_MODEL ≠ s.AI_FALLBACK_MODEL →
        (call_google_ai s backend hist prompt rc).2.countP
          (isGoogleAttemptWith s.AI_FALLBACK_MODEL) = 0) ∧
      googleSleeps (call_google_ai s backend hist prompt rc).2
        = (List.range' (rc + 1) n).map (fun i => s.AI_RETRY_DELAY * i) ∧
      (∀ e ∈ (call_google_ai s backend hist prompt rc).2,
        ∀ fp mdl, e = GoogleEvent.callAttempt fp mdl →
          fp = google_full_prompt hist prompt ∧ mdl = s.GOOGLE_AI_MODEL) := by
  intro n
  induction n with
  | zero =>
      intro rc hrc
      have hnot : ¬ rc < s.AI_MAX_RETRIES := by omega
      have heq : call_google_ai s backend hist prompt rc
          = (Except.error (),
             [GoogleEvent.callAttempt (google_full_prompt hist prompt)
               s.GOOGLE_AI_MODEL]) := by
        conv_lhs => rw [call_google_ai.eq_def]
        simp [hfail, hnot]
      rw [heq]
      refine ⟨rfl, ?_, ?_, ?_, ?_⟩
      · simp [List.countP_cons, isGoogleAttempt]
      · intro hne
        simp [List.countP_cons, isGoogleAttemptWith, hne]
      · simp [googleSleeps]
      · intro e he
        simp only [List.mem_cons, List.not_mem_nil, or_false] at he
        subst he
        exact fun fp mdl hh => by cases hh; exact ⟨rfl, rfl⟩
  | succ m ih =>
      intro rc hrc
      have hlt : rc < s.AI_MAX_RETRIES := by omega
      have heq : call_google_ai s backend hist prompt rc
          = ((call_google_ai s backend hist prompt (rc + 1)).1,
             GoogleEvent.callAttempt (google_full_prompt hist prompt) s.GOOGLE_AI_MODEL
               :: GoogleEvent.sleepEvent (s.AI_RETRY_DELAY * (rc + 1))
               :: (call_google_ai s backend hist prompt (rc + 1)).2) := by
        conv_lhs => rw [call_google_ai.eq_def]
        simp [hfail, hlt]
      obtain ⟨ih1, ih2, ih3, ih4, ih5⟩ := ih (rc + 1) (by omega)
      rw [heq]
      refine ⟨ih1, ?_, ?_, ?_, ?_⟩
      · simp [List.countP_cons, isGoogleAttempt, ih2]
      · intro hne
        simp [List.countP_cons, isGoogleAttempt, isGoogleAttemptWith, hne, ih3 hne]
      · have hs : googleSleeps
            (GoogleEvent.callAttempt (google_full_prompt hist prompt) s.GOOGLE_AI_MODEL
              :: GoogleEvent.sleepEvent (s.AI_RETRY_DELAY * (rc + 1))
              :: (call_google_ai s backend hist prompt (rc + 1)).2)
            = s.AI_RETRY_DELAY * (rc + 1)
              :: googleSleeps (call_google_ai s backend hist prompt (rc + 1)).2 := by
          simp [googleSleeps]
        rw [hs, ih4, List.range'_succ, List.map_cons]
      · intro e he
        simp only [List.mem_cons] at he
        rcases he with h1 | h1 | h1
        · subst h1
          exact fun fp mdl hh => by cases hh; exact ⟨rfl, rfl⟩
        · subst h1
          exact fun fp mdl hh => (nomatch hh)
        · exact ih5 e h1

/-- Counterexample to C2 as stated: with the shipped configuration
switched to the Google provider (fallback enabled, configured model
distinct from AI_FALLBACK_MODEL) and a persistently failing backend, the
call is attempted 1 + AI_MAX_RETRIES times and the error then propagates
with ZERO attempts against the fallback model — the claimed single
fallback attempt never happens on the Google path. -/
theorem C2_counterexample :
    googleSettings.AI_PROVIDER = "google" ∧
    googleSettings.AI_FALLBACK_ENABLED = true ∧
    googleSettings.GOOGLE_AI_MODEL ≠ googleSettings.AI_FALLBACK_MODEL ∧
    (call_google_ai googleSettings (fun _ => none) none ("hi") 0).1
      = Except.error () ∧
    (call_google_ai googleSettings (fun _ => none) none ("hi") 0).2.countP
      isGoogleAttempt = 4 ∧
    (call_google_ai googleSettings (fun _ => none) none ("hi") 0).2.countP
      (isGoogleAttemptWith googleSettings.AI_FALLBACK_MODEL) = 0 := by
  have h := call_google_ai_persistent_failure googleSettings (fun _ => none)
    none ("hi") (fun k => rfl) googleSettings.AI_MAX_RETRIES 0 (by omega)
  exact ⟨rfl, rfl, by decide, h.1, h.2.1, h.2.2.1 (by decide)⟩

/-- C2 amended: under persistent backend failure the call is attempted
once and retried exactly AI_MAX_RETRIES times with linearly increasing
backoff (AI_RETRY_DELAY times the attempt number) reusing the same
message sequence; then, on the OpenAI path only, when fallback is enabled
and the requested model differs from AI_FALLBACK_MODEL, exactly one
additional attempt is made against the fallback model with no further
retries, and its failure propagates the error to the caller; on the
Google path no fallback attempt is ever made and the error propagates
directly after the retries. -/
theorem C2_retry_fallback_amended (s : Settings)
    (primary : Nat → Option (String × Nat)) (fallback : Option (String × Nat))
    (gbackend : Nat → Option String) (hist : Option (List ChatMessage))
    (prompt : String)
    (hfailO : ∀ k, primary k = none) (hfb : fallback = none)
    (hfailG : ∀ k, gbackend k = none)
    (hfen : s.AI_FALLBACK_ENABLED = true)
    (hneq : s.OPENAI_MODEL ≠ s.AI_FALLBACK_MODEL)
    (hgneq : s.GOOGLE_AI_MODEL ≠ s.AI_FALLBACK_MODEL) :
    (call_openai s primary fallback hist prompt 0).1 = Except.error () ∧
    (call_openai s primary fallback hist prompt 0).2.countP isPrimaryCall
      = s.AI_MAX_RETRIES + 1 ∧
    (call_openai s primary fallback hist prompt 0).2.countP isFallbackCall = 1 ∧
    providerSleeps (call_openai s primary fallback hist prompt 0).2
      = (List.range' 1 s.AI_MAX_RETRIES).map (fun i => s.AI_RETRY_DELAY * i) ∧
    (∀ e ∈ (call_openai s primary fallback hist prompt 0).2,
      (∀ msgs mdl, e = ProviderEvent.primaryCall msgs mdl →
        msgs = build_messages hist prompt ∧ mdl = s.OPENAI_MODEL) ∧
      (∀ msgs mdl, e = ProviderEvent.fallbackCall msgs mdl →
        msgs = build_messages hist prompt ∧ mdl = s.AI_FALLBACK_MODEL)) ∧
    (call_google_ai s gbackend hist prompt 0).1 = Except.error () ∧
    (call_google_ai s gbackend hist prompt 0).2.countP isGoogleAttempt
      = s.AI_MAX_RETRIES + 1 ∧
    (call_google_ai s gbackend hist prompt 0).2.countP
      (isGoogleAttemptWith s.AI_FALLBACK_MODEL) = 0 ∧
    googleSleeps (call_google_ai s gbackend hist prompt 0).2
      = (List.range' 1 s.AI_MAX_RETRIES).map (fun i => s.AI_RETRY_DELAY * i) := by
  have ho := call_openai_persistent_failure s primary fallback hist prompt
    hfailO hfb s.AI_MAX_RETRIES 0 (by omega)
  have hg := call_google_ai_persistent_failure s gbackend hist prompt
    hfailG s.AI_MAX_RETRIES 0 (by omega)
  refine ⟨ho.1, ho.2.1, ?_, ho.2.2.2.1, ho.2.2.2.2, hg.1, hg.2.1,
    hg.2.2.1 hgneq, hg.2.2.2.1⟩
  rw [ho.2.2.1, if_pos ⟨hfen, hneq⟩]

/-- Witness for the amended C2 theorem with the shipped configuration and
persistently failing backends: 4 primary attempts, one fallback attempt,
backoff 2,4,6 seconds, and the error propagating; Google path 4 attempts
and no fallback. -/
theorem C2_witness :
    (call_openai defaultSettings (fun _ => none) none none ("hi") 0).1
      = Except.error () ∧
    (call_openai defaultSettings (fun _ => none) none none ("hi") 0).2.countP
      isPrimaryCall = 4 ∧
    (call_openai defaultSettings (fun _ => none) none none ("hi") 0).2.countP
      isFallbackCall = 1 ∧
    providerSleeps (call_openai defaultSettings (fun _ => none) none none ("hi") 0).2
      = [2, 4, 6] ∧
    (call_google_ai defaultSettings (fun _ => none) none ("hi") 0).1
      = Except.error () ∧
    (call_google_ai defaultSettings (fun _ => none) none ("hi") 0).2.countP
      (isGoogleAttemptWith defaultSettings.AI_FALLBACK_MODEL) = 0 := by
  have h := C2_retry_fallback_amended defaultSettings (fun _ => none) none
    (fun _ => none) none ("hi") (fun k => rfl) rfl (fun k => rfl) rfl
    (by decide) (by decide)
  refine ⟨h.1, h.2.1, h.2.2.1, ?_, h.2.2.2.2.2.1, h.2.2.2.2.2.2.2.1⟩
  rw [h.2.2.2.1]
  rfl

/-- INCR at the queried key. -/
theorem redis_incr_same (st : RedisState) (k : RedisKey) :
    redis_incr st k k = some ((st k).getD 0 + 1) := by
  simp [redis_incr]

/-- INCR leaves other keys untouched. -/
theorem redis_incr_other (st : RedisState) (k k' : RedisKey) (h : k' ≠ k) :
    redis_incr st k k' = st k' := by
  simp [redis_incr, h]

/-- The present-and-at-threshold guard of one counter read. -/
theorem counter_guard (a L : Nat) :
    (((if a ≠ 0 then some a else none) : Option Nat).elim false
      (fun c => decide (L ≤ c))) = decide (a ≠ 0 ∧ L ≤ a) := by
  by_cases h : a = 0 <;> simp [h]

/-- Reading the canonical counter store at the minute key. -/
theorem counters_state_minute (user_id : Int) (t a : Nat) :
    counters_state user_id (t / 60) a ⟨user_id, "minute", t / 60⟩
      = if a ≠ 0 then some a else none := by
  simp [counters_state]

/-- Reading the canonical counter store at the hour key. -/
theorem counters_state_hour (user_id : Int) (t a : Nat) :
    counters_state user_id (t / 60) a ⟨user_id, "hour", t / 3600⟩
      = if a ≠ 0 then some a else none := by
  have e1 : t / 60 / 60 = t / 3600 := by
    rw [Nat.div_div_eq_div_mul]
  simp [counters_state, e1]

/-- Reading the canonical counter store at the day key. -/
theorem counters_state_day (user_id : Int) (t a : Nat) :
    counters_state user_id (t / 60) a ⟨user_id, "day", t / 86400⟩
      = if a ≠ 0 then some a else none := by
  have e2 : t / 60 / 1440 = t / 86400 := by
    rw [Nat.div_div_eq_div_mul]
  simp [counters_state, e2]

/-- The three INCRs of an allowed call advance the canonical store. -/
theorem counters_state_incr (user_id : Int) (t a : Nat) :
    redis_incr (redis_incr (redis_incr (counters_state user_id (t / 60) a)
        ⟨user_id, "minute", t / 60⟩) ⟨user_id, "hour", t / 3600⟩)
      ⟨user_id, "day", t / 86400⟩
    = counters_state user_id (t / 60) (a + 1) := by
  have e1 : t / 60 / 60 = t / 3600 := by
    rw [Nat.div_div_eq_div_mul]
  have e2 : t / 60 / 1440 = t / 86400 := by
    rw [Nat.div_div_eq_div_mul]
  funext k
  by_cases hd : k = ⟨user_id, "day", t / 86400⟩
  · subst hd
    rw [redis_incr_same, redis_incr_other _ _ _ (by simp),
      redis_incr_other _ _ _ (by simp)]
    simp [counters_state, e2]
    cases a <;> simp
  · by_cases hh : k = ⟨user_id, "hour", t / 3600⟩
    · subst hh
      rw [redis_incr_other _ _ _ hd, redis_incr_same,
        redis_incr_other _ _ _ (by simp)]
      simp [counters_state, e1]
      cases a <;> simp
    · by_cases hm : k = ⟨user_id, "minute", t / 60⟩
      · subst hm
        rw [redis_incr_other _ _ _ hd, redis_incr_other _ _ _ hh,
          redis_incr_same]
        simp [counters_state]
        cases a <;> simp
      · rw [redis_incr_other _ _ _ hd, redis_incr_other _ _ _ hh,
          redis_incr_other _ _ _ hm]
        simp only [counters_state, e1, e2]
        rw [if_neg, if_neg]
        · rintro ⟨h1 | h1 | h1, -⟩ <;> simp_all
        · rintro ⟨h1 | h1 | h1, -⟩ <;> simp_all

/-- One check from the canonical same-bucket counter store: denied with
the tightest applicable message once a present counter has reached its
threshold (minute checked first, then hour, then day), otherwise allowed
with all three counters advanced. -/
theorem check_rate_limit_step (s : Settings) (directory : Int → Option User)
    (u : User) (user_id : Int) (t a Lm Lh Ld : Nat)
    (hdir : directory user_id = some u)
    (hLm : Lm = if is_paid_user u t then s.RATE_LIMIT_PAID_PER_MINUTE
      else s.RATE_LIMIT_FREE_PER_MINUTE)
    (hLh : Lh = if is_paid_user u t then s.RATE_LIMIT_PAID_PER_HOUR
      else s.RATE_LIMIT_FREE_PER_HOUR)
    (hLd : Ld = if is_paid_user u t then s.RATE_LIMIT_PAID_PER_DAY
      else s.RATE_LIMIT_FREE_PER_DAY) :
    check_rate_limit s directory true (some (counters_state user_id (t / 60) a))
        true t user_id
      = if a ≠ 0 ∧ Lm ≤ a then
          ((false, some (minute_limit_message Lm)),
           some (counters_state user_id (t / 60) a))
        else if a ≠ 0 ∧ Lh ≤ a then
          ((false, some (hour_limit_message Lh)),
           some (counters_state user_id (t / 60) a))
        else if a ≠ 0 ∧ Ld ≤ a then
          ((false, some (day_limit_message Ld)),
           some (counters_state user_id (t / 60) a))
        else
          ((true, none), some (counters_state user_id (t / 60) (a + 1))) := by
  simp only [check_rate_limit, hdir, counters_state_minute, counters_state_hour,
    counters_state_day, counter_guard, Bool.true_eq_false, if_false,
    counters_state_incr, ← hLm, ← hLh, ← hLd]
  by_cases h1 : a ≠ 0 ∧ Lm ≤ a
  · simp [h1]
  · by_cases h2 : a ≠ 0 ∧ Lh ≤ a
    · simp [h1, h2]
    · by_cases h3 : a ≠ 0 ∧ Ld ≤ a
      · simp [h1, h2, h3]
      · simp [h1, h2, h3]

/-- Running checks from the canonical store with a allowed calls already
recorded (a at most the tightest limit): each further call is allowed
exactly while the counters are below the tightest limit, after which
every call is denied with the tightest limit's message. -/
theorem run_rate_limit_from (s : Settings) (directory : Int → Option User)
    (u : User) (user_id : Int) (b Lm Lh Ld : Nat) (p : Bool)
    (hdir : directory user_id = some u)
    (hLm : Lm = if p then s.RATE_LIMIT_PAID_PER_MINUTE
      else s.RATE_LIMIT_FREE_PER_MINUTE)
    (hLh : Lh = if p then s.RATE_LIMIT_PAID_PER_HOUR
      else s.RATE_LIMIT_FREE_PER_HOUR)
    (hLd : Ld = if p then s.RATE_LIMIT_PAID_PER_DAY
      else s.RATE_LIMIT_FREE_PER_DAY)
    (hLm1 : 1 ≤ Lm) (hLh1 : 1 ≤ Lh) (hLd1 : 1 ≤ Ld) :
    ∀ (ts : List Nat) (a : Nat),
      (∀ t ∈ ts, t / 60 = b ∧ is_paid_user u t = p) →
      a ≤ min Lm (min Lh Ld) →
      (run_rate_limit s directory user_id
          (some (counters_state user_id b a)) ts).1
        = (List.range ts.length).map
            (fun i => if a + i < min Lm (min Lh Ld)
                      then ((true : Bool), (none : Option String))
                      else (false, some (tightest_limit_message Lm Lh Ld))) := by
  intro ts
  induction ts with
  | nil =>
      intro a _ _
      simp [run_rate_limit]
  | cons t ts ih =>
      intro a hts ha
      obtain ⟨hb, hp⟩ := hts t (List.mem_cons_self t ts)
      subst hb
      have hstep := check_rate_limit_step s directory u user_id t a Lm Lh Ld hdir
        (by rw [← hp] at hLm; exact hLm) (by rw [← hp] at hLh; exact hLh)
        (by rw [← hp] at hLd; exact hLd)
      simp only [run_rate_limit, List.length_cons]
      rw [List.range_succ_eq_map, List.map_cons, List.map_map]
      by_cases hlt : a < min Lm (min Lh Ld)
      · have hc1 : ¬ (a ≠ 0 ∧ Lm ≤ a) := by omega
        have hc2 : ¬ (a ≠ 0 ∧ Lh ≤ a) := by omega
        have hc3 : ¬ (a ≠ 0 ∧ Ld ≤ a) := by omega
        rw [hstep, if_neg hc1, if_neg hc2, if_neg hc3]
        have hrest := ih (a + 1) (fun t' ht' => hts t' (List.mem_cons_of_mem t ht'))
          (by omega)
        simp only [hrest]
        congr 1
        · rw [if_pos (by omega)]
        · apply List.map_congr_left
          intro i _
          simp only [Function.comp]
          have hidx : a + 1 + i = a + (i + 1) := by omega
          rw [hidx]
      · have haL : a = min Lm (min Lh Ld) := by omega
        have hastep : check_rate_limit s directory true
            (some (counters_state user_id (t / 60) a)) true t user_id
            = ((false, some (tightest_limit_message Lm Lh Ld)),
               some (counters_state user_id (t / 60) a)) := by
          rw [hstep]
          by_cases hm : Lm ≤ a
          · rw [if_pos ⟨by omega, hm⟩]
            rw [tightest_limit_message, if_pos (by omega)]
          · by_cases hh : Lh ≤ a
            · rw [if_neg (by omega), if_pos ⟨by omega, hh⟩]
              rw [tightest_limit_message, if_neg (by omega), if_pos (by omega)]
            · have hd : Ld ≤ a := by omega
              rw [if_neg (by omega), if_neg (by omega), if_pos ⟨by omega, hd⟩]
              rw [tightest_limit_message, if_neg (by omega), if_neg (by omega)]
        rw [hastep]
        have hrest := ih a (fun t' ht' => hts t' (List.mem_cons_of_mem t ht'))
          (by omega)
        simp only [hrest]
        congr 1
        · rw [if_neg (by omega)]
        · apply List.map_congr_left
          intro i _
          simp only [Function.comp]
          rw [if_neg (by omega), if_neg (by omega)]

/-- Counting the indices below L among 0..n-1. -/
theorem countP_range_lt (L n : Nat) :
    (List.range n).countP (fun i => decide (i < L)) = min n L := by
  induction n with
  | zero => simp
  | succ n ih =>
      rw [List.range_succ, List.countP_append, ih]
      by_cases h : n < L
      · simp [h]
        omega
      · simp [h]
        omega

/-- C3: with the counter store operating and the identity present in the
directory, a sequence of checks whose increments all land in the same
wall-clock minute bucket produces exactly min(tightest limit) allowed
results followed by denials: the number of allowed checks never exceeds
the per-minute, per-hour or per-day threshold of the identity's tier, and
every check from the (tightest threshold + 1)-th on (in particular the
(threshold + 1)-th) is denied with the tightest limit's rate-limit
message. -/
theorem C3_rate_limit_threshold (s : Settings) (directory : Int → Option User)
    (u : User) (user_id : Int) (b : Nat) (p : Bool) (ts : List Nat)
    (Lm Lh Ld : Nat)
    (hdir : directory user_id = some u)
    (hts : ∀ t ∈ ts, t / 60 = b ∧ is_paid_user u t = p)
    (hLm : Lm = if p then s.RATE_LIMIT_PAID_PER_MINUTE
      else s.RATE_LIMIT_FREE_PER_MINUTE)
    (hLh : Lh = if p then s.RATE_LIMIT_PAID_PER_HOUR
      else s.RATE_LIMIT_FREE_PER_HOUR)
    (hLd : Ld = if p then s.RATE_LIMIT_PAID_PER_DAY
      else s.RATE_LIMIT_FREE_PER_DAY)
    (hLm1 : 1 ≤ Lm) (hLh1 : 1 ≤ Lh) (hLd1 : 1 ≤ Ld) :
    (run_rate_limit s directory user_id (some (fun _ => none)) ts).1
      = (List.range ts.length).map
          (fun i => if i < min Lm (min Lh Ld)
                    then ((true : Bool), (none : Option String))
                    else (false, some (tightest_limit_message Lm Lh Ld))) ∧
    (run_rate_limit s directory user_id (some (fun _ => none)) ts).1.countP
      (fun r => r.1) ≤ Lm ∧
    (run_rate_limit s directory user_id (some (fun _ => none)) ts).1.countP
      (fun r => r.1) ≤ Lh ∧
    (run_rate_limit s directory user_id (some (fun _ => none)) ts).1.countP
      (fun r => r.1) ≤ Ld ∧
    (∀ i, min Lm (min Lh Ld) ≤ i → i < ts.length →
      (run_rate_limit s directory user_id (some (fun _ => none)) ts).1[i]?
        = some (false, some (tightest_limit_message Lm Lh Ld))) := by
  have h0 : ((fun _ => none) : RedisState) = counters_state user_id b 0 := by
    funext k
    simp [counters_state]
  have hrun := run_rate_limit_from s directory u user_id b Lm Lh Ld p hdir
    hLm hLh hLd hLm1 hLh1 hLd1 ts 0 hts (by omega)
  rw [h0]
  have hmain : (run_rate_limit s directory user_id
      (some (counters_state user_id b 0)) ts).1
      = (List.range ts.length).map
          (fun i => if i < min Lm (min Lh Ld)
                    then ((true : Bool), (none : Option String))
                    else (false, some (tightest_limit_message Lm Lh Ld))) := by
    rw [hrun]
    apply List.map_congr_left
    intro i _
    simp
  have hcount : (run_rate_limit s directory user_id
      (some (counters_state user_id b 0)) ts).1.countP (fun r => r.1)
      = min ts.length (min Lm (min Lh Ld)) := by
    rw [hmain, List.countP_map, ← countP_range_lt (min Lm (min Lh Ld)) ts.length]
    apply List.countP_congr
    intro i _
    simp only [Function.comp]
    by_cases h : i < min Lm (min Lh Ld)
    · rw [if_pos h]
      simp [h]
    · rw [if_neg h]
      simp [h]
  refine ⟨hmain, by rw [hcount]; omega, by rw [hcount]; omega,
    by rw [hcount]; omega, ?_⟩
  intro i hiL hin
  rw [hmain, List.getElem?_map, List.getElem?_range hin]
  have hni : ¬ i < min Lm (min Lh Ld) := by omega
  simp [hni]
  omega

/-- Witness for C3: the spec scenario with the shipped free-tier limits
(5 per minute): six checks in the same minute for a free user give five
allowed results and a sixth denial carrying the per-minute message. -/
theorem C3_witness :
    (run_rate_limit defaultSettings
        (fun i => if i = 1 then
            some ⟨1, SubscriptionStatus.FREE, none, 0, 10, 0, 50, false, none,
              0, 0, 0⟩
          else none)
        1 (some (fun _ => none)) [0, 10, 20, 30, 40, 50]).1
      = [(true, none), (true, none), (true, none), (true, none), (true, none),
         (false, some ("Превышен лимит: 5 запросов в минуту"))] := by
  have h := C3_rate_limit_threshold defaultSettings
    (fun i => if i = 1 then
        some ⟨1, SubscriptionStatus.FREE, none, 0, 10, 0, 50, false, none,
          0, 0, 0⟩
      else none)
    ⟨1, SubscriptionStatus.FREE, none, 0, 10, 0, 50, false, none, 0, 0, 0⟩
    1 0 false [0, 10, 20, 30, 40, 50] 5 50 200
    (by decide) (by decide) rfl rfl rfl (by decide) (by decide) (by decide)
  rw [h.1]
  decide

/-- C7: for an identity present in the user directory, the rate-limit
check fails open — it returns Allowed with no error message and leaves
the counters untouched — whenever the counter store is absent, a counter
operation raises, or any error occurs inside the check itself. -/
theorem C7_rate_limit_fail_open (s : Settings) (directory : Int → Option User)
    (u : User) (user_id : Int) (now : Nat) (st : RedisState)
    (redis : Option RedisState) (redisOk : Bool)
    (hdir : directory user_id = some u) :
    check_rate_limit s directory true none redisOk now user_id
      = ((true, none), none) ∧
    check_rate_limit s directory true (some st) false now user_id
      = ((true, none), some st) ∧
    check_rate_limit s directory false redis redisOk now user_id
      = ((true, none), redis) := by
  refine ⟨?_, ?_, ?_⟩
  · simp [check_rate_limit, hdir]
  · simp [check_rate_limit, hdir]
  · simp [check_rate_limit]

/-- Witness for C7 at a concrete identity and store. -/
theorem C7_witness :
    check_rate_limit defaultSettings
        (fun i => if i = 7 then
            some ⟨7, SubscriptionStatus.FREE, none, 0, 10, 0, 50, false, none,
              0, 0, 0⟩
          else none)
        true none true 123 7
      = ((true, none), none) ∧
    check_rate_limit defaultSettings
        (fun i => if i = 7 then
            some ⟨7, SubscriptionStatus.FREE, none, 0, 10, 0, 50, false, none,
              0, 0, 0⟩
          else none)
        true (some (fun _ => none)) false 123 7
      = ((true, none), some (fun _ => none)) ∧
    check_rate_limit defaultSettings
        (fun i => if i = 7 then
            some ⟨7, SubscriptionStatus.FREE, none, 0, 10, 0, 50, false, none,
              0, 0, 0⟩
          else none)
        false none true 123 7
      = ((true, none), none) :=
  C7_rate_limit_fail_open defaultSettings
    (fun i => if i = 7 then
        some ⟨7, SubscriptionStatus.FREE, none, 0, 10, 0, 50, false, none,
          0, 0, 0⟩
      else none)
    ⟨7, SubscriptionStatus.FREE, none, 0, 10, 0, 50, false, none, 0, 0, 0⟩
    7 123 (fun _ => none) none true (by decide)

/-- C10: an identity with no record in the user directory is always
denied with the user-not-found message, before any counter is read or
incremented — the counter store is returned unchanged whatever its
availability or contents. -/
theorem C10_unknown_identity_denied (s : Settings)
    (directory : Int → Option User) (redis : Option RedisState)
    (redisOk : Bool) (now : Nat) (user_id : Int)
    (hdir : directory user_id = none) :
    check_rate_limit s directory true redis redisOk now user_id
      = ((false, some ("Пользователь не найден")), redis) := by
  simp [check_rate_limit, hdir]

/-- Witness for C10 with an empty directory and a populated store. -/
theorem C10_witness :
    check_rate_limit defaultSettings (fun _ => none) true
        (some ((fun _ => some 3) : RedisState)) true 55 9
      = ((false, some ("Пользователь не найден")),
         some ((fun _ => some 3) : RedisState)) :=
  C10_unknown_identity_denied defaultSettings (fun _ => none)
    (some ((fun _ => some 3) : RedisState)) true 55 9 rfl

/-- C4: when the live check against the external authority fails (the
authority is unreachable or returns unknown) and neither cache tier
answered, the gate fails open asymmetrically: a stored satisfied value
for the identity yields Satisfied regardless of its age, and otherwise —
no user record, or a stored unsatisfied value — the gate returns
Unsatisfied with the generic retry-later message. -/
theorem C4_condition_gate_fail_open (s : Settings)
    (redis : Option (Int → Option Bool)) (user : Option User)
    (user_id : Int) (now : Nat) (force_check : Bool)
    (hchan : s.REQUIRED_CHANNEL_ID ≠ "")
    (hredis : channel_redis_cached redis user_id force_check = none)
    (hdb : channel_db_cached s user now force_check = none) :
    ((∃ u, user = some u ∧ u.channel_subscribed = true) →
      check_subscription s redis user user_id now none force_check
        = ((true, none), user)) ∧
    ((∀ u, user = some u → u.channel_subscribed = false) →
      check_subscription s redis user user_id now none force_check
        = ((false, some ("Ошибка при проверке подписки. Попробуйте позже.")),
           user)) := by
  constructor
  · rintro ⟨u, rfl, hu⟩
    simp [check_subscription, hchan, hredis, hdb, hu]
  · intro h
    cases huser : user with
    | none => simp [check_subscription, hchan, hredis, huser ▸ hdb]
    | some u =>
        have hu := h u huser
        rw [huser] at hdb
        simp [check_subscription, hchan, hredis, hdb, hu]

/-- Witness for C4: a stale satisfied record is reused when the authority
fails; an unknown identity is denied with the retry-later message. -/
theorem C4_witness :
    check_subscription channelSettings none
        (some ⟨3, SubscriptionStatus.FREE, none, 0, 10, 0, 50, true, none,
          0, 0, 0⟩)
        3 1000 none false
      = ((true, none),
         some ⟨3, SubscriptionStatus.FREE, none, 0, 10, 0, 50, true, none,
           0, 0, 0⟩) ∧
    check_subscription channelSettings none none 4 1000 none false
      = ((false, some ("Ошибка при проверке подписки. Попробуйте позже.")),
         none) :=
  ⟨(C4_condition_gate_fail_open channelSettings none
      (some ⟨3, SubscriptionStatus.FREE, none, 0, 10, 0, 50, true, none,
        0, 0, 0⟩)
      3 1000 false (by decide) rfl rfl).1
      ⟨⟨3, SubscriptionStatus.FREE, none, 0, 10, 0, 50, true, none, 0, 0, 0⟩,
        rfl, rfl⟩,
   (C4_condition_gate_fail_open channelSettings none none 4 1000 false
      (by decide) rfl rfl).2 (fun u h => nomatch h)⟩

/-- A cache miss leaves both tiers untouched. -/
theorem ai_get_cache_miss_state (s : Settings) (st : CacheState)
    (h : String) (now : Nat)
    (hm : (ai_get_cache s st h now).1 = none) :
    (ai_get_cache s st h now).2 = st := by
  by_cases hc : s.AI_CACHE_ENABLED = false
  · simp [ai_get_cache, hc]
  · have hred : (match st.redis with
        | some m => m h
        | none => none) = none := by
      by_contra hx
      rcases Option.ne_none_iff_exists'.mp hx with ⟨c, hcx⟩
      simp [ai_get_cache, hc, hcx] at hm
    cases hmatch : st.db.filter
        (fun r => r.prompt_hash == h && decide (now < r.expires_at)) with
    | nil => simp [ai_get_cache, hc, hred, hmatch]
    | cons r rest =>
        cases rest with
        | nil => simp [ai_get_cache, hc, hred, hmatch] at hm
        | cons r2 rest2 => simp [ai_get_cache, hc, hred, hmatch]

/-- A volatile-tier hit returns the cached value with no state change. -/
theorem ai_get_cache_redis_hit (s : Settings) (st : CacheState)
    (h : String) (now : Nat) (m : String → Option String) (c : String)
    (hen : s.AI_CACHE_ENABLED = true) (hr : st.redis = some m)
    (hm : m h = some c) :
    ai_get_cache s st h now = (some c, st) := by
  simp [ai_get_cache, hen, hr, hm]

/-- A store into a key-free table inserts the fresh row and repopulates
the volatile tier. -/
theorem ai_save_cache_insert (s : Settings) (st : CacheState)
    (h resp : String) (toks now : Nat)
    (hen : s.AI_CACHE_ENABLED = true)
    (hkey : ∀ row ∈ st.db, row.cache_key ≠ ai_cache_key h) :
    ai_save_cache s st h resp toks now
      = ⟨st.db ++ [⟨ai_cache_key h, h, resp, toks, now + s.AI_CACHE_TTL, 0⟩],
         match st.redis with
         | some m => some (fun k => if k = h then some resp else m k)
         | none => none⟩ := by
  have hany : st.db.any (fun r => r.cache_key == ai_cache_key h) = false := by
    rw [List.any_eq_false]
    intro row hrow
    simpa using hkey row hrow
  simp [ai_save_cache, hen, hany]

/-- The first provider attempt succeeding short-circuits the retry
tree. -/
theorem call_openai_first_success (s : Settings)
    (primary : Nat → Option (String × Nat)) (fallback : Option (String × Nat))
    (hist : Option (List ChatMessage)) (prompt : String) (r : String × Nat)
    (h : primary 0 = some r) :
    call_openai s primary fallback hist prompt 0
      = (Except.ok ⟨r.1, r.2, s.OPENAI_MODEL⟩,
         [ProviderEvent.primaryCall (build_messages hist prompt)
           s.OPENAI_MODEL]) := by
  conv_lhs => rw [call_openai.eq_def]
  simp [h]

/-- C9: the cache fingerprint is computed only from the prompt text, the
configured model and the configured temperature — never from the
requester identity or the conversation history (hash_prompt takes
neither as input, and process_text hashes the bare prompt).  Hence for
the same prompt under the same configuration, a first user's miss
populates the cache and a second user with a different identity and a
different conversation history is served the first user's cached
response. -/
theorem C9_fingerprint_identity_blind (H : String → String) (s : Settings)
    (openaiPrimary : Nat → Option (String × Nat))
    (openaiFallback : Option (String × Nat))
    (googleBackend : Nat → Option String)
    (st : CacheState) (prompt : String) (m : String → Option String)
    (resp : String) (toks : Nat) (now now2 : Nat) (u1 u2 : Int)
    (h1 h2 : Option (List ChatMessage))
    (hen : s.AI_CACHE_ENABLED = true)
    (hprov : s.AI_PROVIDER = "openai")
    (hredis : st.redis = some m)
    (hmiss : (ai_get_cache s st (hash_prompt H s prompt none) now).1 = none)
    (hdb : ∀ r ∈ st.db, r.cache_key ≠ ai_cache_key (hash_prompt H s prompt none))
    (hcall : openaiPrimary 0 = some (resp, toks)) :
    (process_text H s openaiPrimary openaiFallback googleBackend st prompt u1
        h1 now).1
      = Except.ok ⟨resp, toks, s.OPENAI_MODEL, false⟩ ∧
    (process_text H s openaiPrimary openaiFallback googleBackend
        (process_text H s openaiPrimary openaiFallback googleBackend st prompt
          u1 h1 now).2
        prompt u2 h2 now2).1
      = Except.ok ⟨resp, 0, s.AI_PROVIDER ++ "_cached", true⟩ := by
  have hmstate := ai_get_cache_miss_state s st (hash_prompt H s prompt none)
    now hmiss
  have hfirst : process_text H s openaiPrimary openaiFallback googleBackend st
      prompt u1 h1 now
      = (Except.ok ⟨resp, toks, s.OPENAI_MODEL, false⟩,
         ai_save_cache s st (hash_prompt H s prompt none) resp toks now) := by
    simp only [process_text, hmiss, hprov, if_pos,
      call_openai_first_success s openaiPrimary openaiFallback h1 prompt
        (resp, toks) hcall, hmstate]
  rw [hfirst]
  refine ⟨rfl, ?_⟩
  rw [ai_save_cache_insert s st (hash_prompt H s prompt none) resp toks now
    hen hdb]
  have hhit : ai_get_cache s
      (⟨st.db ++ [⟨ai_cache_key (hash_prompt H s prompt none),
          hash_prompt H s prompt none, resp, toks, now + s.AI_CACHE_TTL, 0⟩],
        match st.redis with
        | some mm => some (fun k => if k = hash_prompt H s prompt none
            then some resp else mm k)
        | none => none⟩ : CacheState)
      (hash_prompt H s prompt none) now2
      = (some resp,
         ⟨st.db ++ [⟨ai_cache_key (hash_prompt H s prompt none),
            hash_prompt H s prompt none, resp, toks, now + s.AI_CACHE_TTL, 0⟩],
          match st.redis with
          | some mm => some (fun k => if k = hash_prompt H s prompt none
              then some resp else mm k)
          | none => none⟩) := by
    apply ai_get_cache_redis_hit _ _ _ _
      (fun k => if k = hash_prompt H s prompt none then some resp else m k)
      resp hen
    · simp [hredis]
    · simp
  simp only [process_text, hhit]

/-- Witness for C9: user 1 with no history misses and populates the
cache; user 2 with a different history is served user 1's response from
the cache. -/
theorem C9_witness :
    (process_text (fun x => x) defaultSettings (fun _ => some ("resp", 7))
        none (fun _ => none) ⟨[], some (fun _ => none)⟩ ("hello") 1 none 0).1
      = Except.ok ⟨"resp", 7, "gpt-4-turbo-preview", false⟩ ∧
    (process_text (fun x => x) defaultSettings (fun _ => some ("resp", 7))
        none (fun _ => none)
        (process_text (fun x => x) defaultSettings (fun _ => some ("resp", 7))
          none (fun _ => none) ⟨[], some (fun _ => none)⟩ ("hello") 1 none 0).2
        ("hello") 2 (some [⟨"user", "earlier"⟩]) 5).1
      = Except.ok ⟨"resp", 0, "openai_cached", true⟩ :=
  C9_fingerprint_identity_blind (fun x => x) defaultSettings
    (fun _ => some ("resp", 7)) none (fun _ => none)
    ⟨[], some (fun _ => none)⟩ ("hello") (fun _ => none) ("resp") 7 0 5 1 2
    none (some [⟨"user", "earlier"⟩]) rfl rfl rfl rfl (by simp) rfl

/-- Counterexample to C1 as stated: a free-tier user served a cache hit
(from_cache = true, zero tokens, the provider bypassed) still has
free_messages_used incremented from 0 to 1 on a successfully completed
request. -/
theorem C1_counterexample :
    (process_text_message defaultSettings
        (fun i => if i = 1 then
            some ⟨1, SubscriptionStatus.FREE, none, 0, 10, 0, 50, false, none,
              0, 0, 0⟩
          else none)
        1 (some ⟨"hi", 0, "openai_cached", true⟩) 0).1
      = HandlerOutcome.answered ("hi") ∧
    (⟨"hi", 0, "openai_cached", true⟩ : ProcessTextResult).from_cache = true ∧
    ((process_text_message defaultSettings
        (fun i => if i = 1 then
            some ⟨1, SubscriptionStatus.FREE, none, 0, 10, 0, 50, false, none,
              0, 0, 0⟩
          else none)
        1 (some ⟨"hi", 0, "openai_cached", true⟩) 0).2.map
      (fun u => u.free_messages_used)) = some 1 := by
  refine ⟨rfl, rfl, ?_⟩
  decide

/-- C1 amended: for a known identity, the tier counter of the identity's
current status is incremented exactly once per successfully completed
request — INCLUDING requests served from the cache — and is never
incremented when the allowance check denies the request or the AI call
fails; paid/expired/cancelled statuses increment neither counter. -/
theorem C1_usage_counter_amended (s : Settings)
    (directory : Int → Option User) (user_id : Int) (u : User)
    (r : ProcessTextResult) (now : Nat)
    (hdir : directory user_id = some u) :
    ((check_user_limits now u).1 = true →
      ∃ u', process_text_message s directory user_id (some r) now
          = (HandlerOutcome.answered r.response, some u') ∧
        u'.trial_messages_used
          = (if u.subscription_status = SubscriptionStatus.TRIAL
             then u.trial_messages_used + 1 else u.trial_messages_used) ∧
        u'.free_messages_used
          = (if u.subscription_status = SubscriptionStatus.TRIAL
             then u.free_messages_used
             else if u.subscription_status = SubscriptionStatus.FREE
             then u.free_messages_used + 1 else u.free_messages_used)) ∧
    (∀ msg, check_user_limits now u = (false, msg) →
      process_text_message s directory user_id (some r) now
        = (HandlerOutcome.denied (msg.getD ""), some u)) ∧
    (process_text_message s directory user_id none now).2 = some u := by
  refine ⟨?_, ?_, ?_⟩
  · intro hall
    cases hchk : check_user_limits now u with
    | mk b msg =>
        rw [hchk] at hall
        subst hall
        refine ⟨{ u with
            total_messages_sent := u.total_messages_sent + 1
            total_tokens_used := u.total_tokens_used + r.tokens_used
            total_cost_estimated := u.total_cost_estimated
              + estimate_cost r.tokens_used r.model
            trial_messages_used :=
              if u.subscription_status = SubscriptionStatus.TRIAL
              then u.trial_messages_used + 1 else u.trial_messages_used
            free_messages_used :=
              if u.subscription_status = SubscriptionStatus.TRIAL
              then u.free_messages_used
              else if u.subscription_status = SubscriptionStatus.FREE
              then u.free_messages_used + 1 else u.free_messages_used },
          ?_, rfl, rfl⟩
        simp [process_text_message, hdir, hchk]
  · intro msg hchk
    simp [process_text_message, hdir, hchk]
  · cases hchk : check_user_limits now u with
    | mk b msg =>
        cases b
        · simp [process_text_message, hdir, hchk]
        · simp [process_text_message, hdir, hchk]

/-- Witness for the amended C1 theorem: a trial user's counter advances
on a cache-served success; a free user over the allowance is denied
unchanged; an AI failure leaves the record unchanged. -/
theorem C1_witness :
    (∃ u', process_text_message defaultSettings
        (fun i => if i = 5 then
            some ⟨5, SubscriptionStatus.TRIAL, none, 0, 10, 2, 50, false, none,
              0, 0, 0⟩
          else none)
        5 (some ⟨"ok", 0, "openai_cached", true⟩) 0
        = (HandlerOutcome.answered ("ok"), some u') ∧
      u'.trial_messages_used = 3 ∧ u'.free_messages_used = 0) ∧
    (process_text_message defaultSettings
        (fun i => if i = 5 then
            some ⟨5, SubscriptionStatus.TRIAL, none, 0, 10, 2, 50, false, none,
              0, 0, 0⟩
          else none)
        5 none 0).2
      = some ⟨5, SubscriptionStatus.TRIAL, none, 0, 10, 2, 50, false, none,
          0, 0, 0⟩ := by
  have h := C1_usage_counter_amended defaultSettings
    (fun i => if i = 5 then
        some ⟨5, SubscriptionStatus.TRIAL, none, 0, 10, 2, 50, false, none,
          0, 0, 0⟩
      else none)
    5 ⟨5, SubscriptionStatus.TRIAL, none, 0, 10, 2, 50, false, none, 0, 0, 0⟩
    ⟨"ok", 0, "openai_cached", true⟩ 0 (by decide)
  obtain ⟨u', hu1, hu2, hu3⟩ := h.1 (by decide)
  refine ⟨⟨u', hu1, ?_, ?_⟩, h.2.2⟩
  · rw [hu2]
    decide
  · rw [hu3]
    decide
